import Mathlib

/-!
Verification development for the kenpark parking screen: the parking-session
and payment-session state machines and the screen wiring of
`src/app/(tabs)/index.tsx`. The `useParking` / `usePayment` hooks and the
phone-formatting utilities are collaborators of that screen whose sources are
not in the repository snapshot; those operations are modelled from the
specification (each such definition says so in its doc comment). Everything
else is embedded directly from `index.tsx`.
-/

namespace KenPark

/-! ## Parking Session Manager -/

inductive ParkStatus
  | Idle
  | Active
deriving DecidableEq

structure GeoPoint where
  latitude : Int
  longitude : Int
deriving DecidableEq

/-- A finished-session record: final cost and the payment receipt reference. -/
structure CompletedRecord where
  cost : Nat
  receipt : String
deriving DecidableEq

/-- Modelled from the spec: the Parking Session Manager state owned by the
`useParking` hook (hook source not under src/): status (Idle or Active),
`startedAt` timestamp set when Active, an optionally tracked location
reference, and the log of completed sessions. -/
structure ParkingSession where
  status : ParkStatus
  startedAt : Option Nat
  trackedLocation : Option GeoPoint
  completedRecords : List CompletedRecord
deriving DecidableEq

/-- Modelled from the spec: `start()` requires status = Idle; sets
status = Active and startedAt = now; no-op if already Active. -/
def startParking (now : Nat) (s : ParkingSession) : ParkingSession :=
  match s.status with
  | .Idle => { s with status := .Active, startedAt := some now }
  | .Active => s

/-- Modelled from the spec: `resume(lastKnownLocation)` is a UI re-entry point
performing no state mutation beyond optionally refreshing the tracked
location reference. -/
def resumeParking (loc : Option GeoPoint) (s : ParkingSession) : ParkingSession :=
  match loc with
  | some l => { s with trackedLocation := some l }
  | none => s

/-- Modelled from the spec: `reset()` sets status = Idle and clears
startedAt; callable from any state. -/
def resetParking (s : ParkingSession) : ParkingSession :=
  { s with status := .Idle, startedAt := none }

/-- Modelled from the spec: `elapsedTime()` is the pure read now − startedAt
while Active, with zero semantics when Idle. -/
def elapsedTime (now : Nat) (s : ParkingSession) : Nat :=
  match s.status, s.startedAt with
  | .Active, some t0 => now - t0
  | _, _ => 0

/-- Modelled from the spec: cost as a function of elapsed seconds at a given
hourly rate — elapsed × rate / 3600, rounded up (the ceil-or-linear policy,
taken as ceil so that partial hours are charged). -/
def costOfElapsed (rate e : Nat) : Nat :=
  (rate * e + 3599) / 3600

/-- Modelled from the spec: `currentCost()` is the pure read derived from
`elapsedTime()` and the configured hourly rate. -/
def currentCost (rate now : Nat) (s : ParkingSession) : Nat :=
  costOfElapsed rate (elapsedTime now s)

/-- Modelled from the spec: `complete(receiptReference)` requires
status = Active; records the session as finished with final cost and the
receipt reference, then transitions to Idle. -/
def completeParking (rate now : Nat) (receipt : String) (s : ParkingSession) :
    ParkingSession :=
  match s.status with
  | .Active =>
      { s with
        status := .Idle
        startedAt := none
        completedRecords :=
          s.completedRecords ++ [⟨currentCost rate now s, receipt⟩] }
  | .Idle => s

/-! ## Phone number formatting -/

/-- Whitespace trimming on the character list of a string (the character
level model of `String.trim`). -/
def trimChars (cs : List Char) : List Char :=
  ((cs.dropWhile Char.isWhitespace).reverse.dropWhile Char.isWhitespace).reverse

/-- True when the character list starts with 07 or 01, the Kenyan local
mobile prefixes. -/
def startsWithLocalPrefix (cs : List Char) : Bool :=
  match cs with
  | '0' :: c :: _ => c == '7' || c == '1'
  | _ => false

/-- True when the character list starts with 2547 or 2541, the normalized
Kenyan mobile prefixes. -/
def startsWithCountryPrefix (cs : List Char) : Bool :=
  match cs with
  | '2' :: '5' :: '4' :: c :: _ => c == '7' || c == '1'
  | _ => false

/-- Modelled from the spec: the country-specific (Kenyan) phone formatter
`format(raw) -> normalized | null` from `utils/phoneFormatter` (not under
src/). Accepts a ten-digit local mobile number starting 07 or 01
(e.g. 0712345678) or an already normalized 2547/2541 twelve-digit number,
returning the normalized 254-prefixed form; anything else is rejected. -/
def formatPhoneNumber (raw : String) : Option String :=
  let cs := trimChars raw.data
  if cs.length = 10 && cs.all Char.isDigit && startsWithLocalPrefix cs then
    some (String.mk ('2' :: '5' :: '4' :: cs.drop 1))
  else if cs.length = 12 && cs.all Char.isDigit && startsWithCountryPrefix cs then
    some (String.mk cs)
  else
    none

/-- Modelled from the spec: `validate(raw) -> bool`, true exactly when the
formatter accepts the input. -/
def validatePhoneNumber (raw : String) : Bool :=
  (formatPhoneNumber raw).isSome

/-- Modelled from the spec: the format-validation check the Payment Session
Manager applies to the normalized phone it receives. -/
def validNormalizedPhone (s : String) : Bool :=
  s.data.length = 12 && s.data.all Char.isDigit && startsWithCountryPrefix s.data

/-! ## Payment Session Manager -/

inductive PayStatus
  | Idle
  | AwaitingInput
  | Pending
  | Success
  | Error
deriving DecidableEq

inductive PaymentError
  | InvalidPhoneNumber
  | PaymentAlreadyInProgress
  | GatewayTimeout
  | GatewayRejected
  | StaleConfirmation
deriving DecidableEq

/-- Modelled from the spec: the PaymentRequest read model owned by the
`usePayment` hook (hook source not under src/). `requestId` is the opaque
handle the screen renders as `checkoutRequestID`. -/
structure PaymentRequest where
  status : PayStatus
  phoneNumber : String
  requestId : Option Nat
  receipt : Option String
deriving DecidableEq

/-- Modelled from the spec: `reset()` clears all fields to Idle from any
state. -/
def resetPayment (_p : PaymentRequest) : PaymentRequest :=
  ⟨.Idle, "", none, none⟩

/-- A request submitted to the external mobile-money gateway. -/
structure GatewayRequest where
  requestId : Nat
  phone : String
  amount : Nat
deriving DecidableEq

/-- Outcome of an asynchronous gateway confirmation. -/
inductive GatewayOutcome
  | success (receipt : String)
  | failure (reason : String)
deriving DecidableEq

/-! ## Combined screen state

The screen of `index.tsx` composes the two managers with its own React
state (`paymentModalVisible`, `isDrawerMinimized`). `gatewayCalls` logs every
request submitted to the gateway, `completeCalls` counts invocations of
`parking.completeParking`, and `cancelDialogShown` counts invocations of
`handleCancelPayment` (each shows the cancel-parking Alert); the counters
instrument the wiring so exactly-once properties are statable. -/

structure SystemState where
  parking : ParkingSession
  payment : PaymentRequest
  paymentModalVisible : Bool
  isDrawerMinimized : Bool
  nextRequestId : Nat
  gatewayCalls : List GatewayRequest
  completeCalls : Nat
  cancelDialogShown : Nat
deriving DecidableEq

/-- Modelled from the spec: the `isProcessingPayment` flag the screen reads
from `usePayment` — true exactly while a request is Pending at the
gateway. -/
def isProcessingPayment (s : SystemState) : Bool :=
  decide (s.payment.status = PayStatus.Pending)

/-- Modelled from the spec: `initiate(normalizedPhone, amount, ...)`.
Duplicate submissions while Pending are rejected with
PaymentAlreadyInProgress and leave everything unchanged; a phone failing the
format validation is rejected with InvalidPhoneNumber and nothing is
submitted to the gateway. On acceptance status becomes Pending, a fresh
requestId is assigned and the request is submitted to the gateway. The
surfaced error, if any, is returned alongside the state. -/
def initiatePayment (phone : String) (amount : Nat) (s : SystemState) :
    SystemState × Option PaymentError :=
  if s.payment.status = PayStatus.Pending then
    (s, some .PaymentAlreadyInProgress)
  else if validNormalizedPhone phone = false then
    (s, some .InvalidPhoneNumber)
  else
    ({ s with
        payment :=
          { s.payment with status := .Pending, requestId := some s.nextRequestId }
        nextRequestId := s.nextRequestId + 1
        gatewayCalls := s.gatewayCalls ++ [⟨s.nextRequestId, phone, amount⟩] },
     none)

/-- Modelled from the spec: `cancel()` requires status = Pending; flips
status to AwaitingInput immediately and drops the pending requestId (the
gateway cancellation is best-effort and a late result must no longer
match). -/
def cancelPayment (s : SystemState) : SystemState :=
  if s.payment.status = PayStatus.Pending then
    { s with payment := { s.payment with status := .AwaitingInput, requestId := none } }
  else s

/-- Embeds the onSuccess callback the screen passes to `initiatePayment`
(index.tsx lines 169-187): completes the parking session with the
confirmation receipt (the `onPaymentSuccess` option at lines 48-52 is the
same action, `parking.completeParking(mpesaReceipt)`). The Done button of
the ensuing success alert is the separate step `pressDone`. -/
def onPaymentSuccessHandler (receipt : String) (rate now : Nat)
    (s : SystemState) : SystemState :=
  { s with
      parking := completeParking rate now receipt s.parking
      completeCalls := s.completeCalls + 1 }

/-- Embeds the Done button of the payment-success alert (index.tsx lines
176-185): resets the parking session, resets the payment request and closes
the payment modal. -/
def pressDone (s : SystemState) : SystemState :=
  { s with
      parking := resetParking s.parking
      payment := resetPayment s.payment
      paymentModalVisible := false }

/-- Modelled from the spec: delivery of an asynchronous gateway confirmation
`(requestId, outcome)`. It is applied only when a request is Pending and the
delivered requestId equals the current pending request's id; a success then
moves status to Success, records the receipt and invokes the success path
exactly once, from the Success transition (which, per the screen wiring,
runs `onPaymentSuccessHandler`); a failure returns to AwaitingInput. A stale
or mismatched confirmation is dropped: the state is left unchanged. -/
def applyConfirmation (rid : Nat) (outcome : GatewayOutcome) (rate now : Nat)
    (s : SystemState) : SystemState :=
  if s.payment.status = PayStatus.Pending ∧ s.payment.requestId = some rid then
    match outcome with
    | .success receipt =>
        onPaymentSuccessHandler receipt rate now
          { s with
              payment := { s.payment with status := .Success, receipt := some receipt } }
    | .failure _ =>
        { s with payment := { s.payment with status := .AwaitingInput, requestId := none } }
  else s

/-- End-to-end scenario 2 of the spec as composed by the screen wiring: a
valid initiation followed by the gateway's success confirmation for the
freshly assigned requestId. -/
def successPaymentFlow (phone receipt : String) (amount rate now : Nat)
    (s : SystemState) : SystemState :=
  applyConfirmation s.nextRequestId (GatewayOutcome.success receipt) rate now
    (initiatePayment phone amount s).1

/-! ## Screen handlers embedded from index.tsx -/

/-- Embeds `toggleParking` (index.tsx lines 103-122): while parking is
active the stop gesture does NOT stop the session — it only opens the
payment modal and maximizes the drawer; otherwise it starts parking. -/
def toggleParking (now : Nat) (s : SystemState) : SystemState :=
  if s.parking.status = ParkStatus.Active then
    { s with paymentModalVisible := true, isDrawerMinimized := false }
  else
    { s with parking := startParking now s.parking }

/-- Embeds `handleCancelPayment` (index.tsx lines 125-151): shows the
cancel-parking confirmation Alert; the state is otherwise untouched until
the user picks a branch. -/
def handleCancelPayment (s : SystemState) : SystemState :=
  { s with cancelDialogShown := s.cancelDialogShown + 1 }

/-- Embeds the Continue Parking branch of the cancel dialog (index.tsx lines
130-138): `parking.resumeParking(location?.coords)` then closes the payment
modal. -/
def continueParkingBranch (loc : Option GeoPoint) (s : SystemState) : SystemState :=
  { s with
      parking := resumeParking loc s.parking
      paymentModalVisible := false }

/-- Embeds the Yes-Cancel branch of the cancel dialog (index.tsx lines
139-148): `parking.resetParking()`, `payment.resetPayment()`, close the
payment modal. -/
def fullCancelBranch (s : SystemState) : SystemState :=
  { s with
      parking := resetParking s.parking
      payment := resetPayment s.payment
      paymentModalVisible := false }

/-- Embeds `handleInitiatePayment` (index.tsx lines 154-192): an empty or
format-rejected phone number surfaces the invalid-phone error modal and
returns without touching the payment manager or the gateway; otherwise the
formatted phone and the current parking cost are passed to
`initiatePayment`. -/
def handleInitiatePayment (rate now : Nat) (s : SystemState) :
    SystemState × Option PaymentError :=
  if trimChars s.payment.phoneNumber.data = [] then
    (s, some .InvalidPhoneNumber)
  else
    match formatPhoneNumber s.payment.phoneNumber with
    | none => (s, some .InvalidPhoneNumber)
    | some formatted =>
        initiatePayment formatted (currentCost rate now s.parking) s

/-- Embeds the payment Modal's onRequestClose handler (index.tsx line 285):
`!payment.isProcessingPayment && handleCancelPayment()`. -/
def onRequestCloseHandler (s : SystemState) : SystemState :=
  if isProcessingPayment s then s else handleCancelPayment s

/-- Embeds the backdrop press handler (index.tsx lines 288-292): same guard
as onRequestClose. -/
def backdropPressHandler (s : SystemState) : SystemState :=
  if isProcessingPayment s then s else handleCancelPayment s

/-- Embeds the header close button (index.tsx lines 316-326):
onPress = handleCancelPayment with `disabled` while isProcessingPayment, so
a press while disabled does nothing. -/
def closeButtonPress (s : SystemState) : SystemState :=
  if isProcessingPayment s then s else handleCancelPayment s

/-- Embeds the Cancel link under the Pay button (index.tsx lines 437-447):
onPress = handleCancelPayment with `disabled` while isProcessingPayment
(and the link is only rendered when the status is not pending). -/
def cancelLinkPress (s : SystemState) : SystemState :=
  if isProcessingPayment s then s else handleCancelPayment s

/-- Embeds the Cancel Payment button shown during Pending (index.tsx lines
409-417): `payment.cancelPayment()`. -/
def cancelPaymentButtonPress (s : SystemState) : SystemState :=
  cancelPayment s

/-! ## Drawer drag gesture embedded from index.tsx -/

def DRAWER_MIN_HEIGHT : ℚ := 100

/-- index.tsx line 34: `SCREEN_HEIGHT * 0.75`. -/
def DRAWER_MAX_HEIGHT (screenHeight : ℚ) : ℚ :=
  screenHeight * (3 / 4)

/-- Embeds `onPanResponderMove` (index.tsx lines 59-67): a downward drag
(dy > 0) sets the height to max(DRAWER_MIN_HEIGHT, DRAWER_MAX_HEIGHT − dy);
any other dy leaves the height untouched. -/
def onPanResponderMove (screenHeight dy h : ℚ) : ℚ :=
  if 0 < dy then
    max DRAWER_MIN_HEIGHT (DRAWER_MAX_HEIGHT screenHeight - dy)
  else h

structure ReleaseResult where
  target : ℚ
  minimized : Bool
deriving DecidableEq

/-- Embeds `onPanResponderRelease` (index.tsx lines 68-87): the released
height DRAWER_MAX_HEIGHT − dy is compared with the midpoint threshold; below
it the drawer animates to DRAWER_MIN_HEIGHT and is marked minimized,
otherwise to DRAWER_MAX_HEIGHT and marked not minimized. -/
def onPanResponderRelease (screenHeight dy : ℚ) : ReleaseResult :=
  let currentHeight := DRAWER_MAX_HEIGHT screenHeight - dy
  let threshold := (DRAWER_MIN_HEIGHT + DRAWER_MAX_HEIGHT screenHeight) / 2
  if currentHeight < threshold then
    ⟨DRAWER_MIN_HEIGHT, true⟩
  else
    ⟨DRAWER_MAX_HEIGHT screenHeight, false⟩

/-! ## Sample states for concrete evaluation -/

/-- An active parking session started at t = 30. -/
def parkingA : ParkingSession := ⟨.Active, some 30, some ⟨1, 2⟩, []⟩

/-- Screen state with an active session and the payment form awaiting
input. -/
def stateAW : SystemState :=
  ⟨parkingA, ⟨.AwaitingInput, "0712345678", none, none⟩, true, false, 3, [], 0, 0⟩

/-- Screen state with an active session and a payment request pending at the
gateway under requestId 7. -/
def stateAP : SystemState :=
  ⟨parkingA, ⟨.Pending, "0712345678", some 7, none⟩, true, false, 8,
   [⟨7, "254712345678", 60⟩], 0, 0⟩

/-- Screen state with an active session and an invalid phone number typed
into the awaiting-input payment form. -/
def stateBadPhone : SystemState :=
  ⟨parkingA, ⟨.AwaitingInput, "123", none, none⟩, true, false, 3, [], 0, 0⟩

/-! ## Theorems -/

/-- C6: `currentCost()` is a monotonically non-decreasing function of
`elapsedTime()`: for elapsed values e1 ≤ e2 at a fixed hourly rate,
cost(e1) ≤ cost(e2); at elapsed = 0 the cost is 0; the cost is always ≥ 0;
and `currentCost` is exactly the cost function applied to
`elapsedTime`. -/
theorem currentCost_monotone (rate e1 e2 now : Nat) (s : ParkingSession)
    (h : e1 ≤ e2) :
    costOfElapsed rate e1 ≤ costOfElapsed rate e2 ∧
    costOfElapsed rate 0 = 0 ∧
    0 ≤ costOfElapsed rate e1 ∧
    currentCost rate now s = costOfElapsed rate (elapsedTime now s) := by
  refine ⟨?_, ?_, Nat.zero_le _, rfl⟩
  · exact Nat.div_le_div_right (Nat.add_le_add_right (Nat.mul_le_mul_left _ h) _)
  · simp [costOfElapsed]

/-- Witness for C6 at rate 60, elapsed 1 ≤ 7200. -/
theorem currentCost_monotone_witness :
    costOfElapsed 60 1 ≤ costOfElapsed 60 7200 ∧
    costOfElapsed 60 0 = 0 ∧
    0 ≤ costOfElapsed 60 1 ∧
    currentCost 60 100 parkingA = costOfElapsed 60 (elapsedTime 100 parkingA) :=
  currentCost_monotone 60 1 7200 100 parkingA (by decide)

/-- C7: `start()` from Idle sets status = Active and startedAt = now;
calling it again without an intervening reset or completion is a no-op that
changes nothing (in particular startedAt keeps its original value), and a
second `start()` right after a first one is always the identity. -/
theorem startParking_idempotent (s : ParkingSession) (t0 t1 : Nat)
    (h : s.status = ParkStatus.Idle) :
    (startParking t0 s).status = ParkStatus.Active ∧
    (startParking t0 s).startedAt = some t0 ∧
    startParking t1 (startParking t0 s) = startParking t0 s := by
  obtain ⟨st, sa, tl, cr⟩ := s
  cases st
  · simp [startParking]
  · simp at h

/-- Witness for C7 starting the idle initial session at t = 10. -/
theorem startParking_idempotent_witness :
    (startParking 10 ⟨.Idle, none, none, []⟩).status = ParkStatus.Active ∧
    (startParking 10 ⟨.Idle, none, none, []⟩).startedAt = some 10 ∧
    startParking 20 (startParking 10 ⟨.Idle, none, none, []⟩) =
      startParking 10 ⟨.Idle, none, none, []⟩ :=
  startParking_idempotent ⟨.Idle, none, none, []⟩ 10 20 (by decide)

/-- C8: the Yes-Cancel branch of the cancel dialog resets both managers —
parking goes to Idle with startedAt cleared, the payment request goes to
Idle with its requestId cleared, the modal closes, and no completion is
recorded (completeCalls and the completed-session log are unchanged, so no
charge occurs). -/
theorem full_cancel_resets_both (s : SystemState) :
    (fullCancelBranch s).parking.status = ParkStatus.Idle ∧
    (fullCancelBranch s).parking.startedAt = none ∧
    (fullCancelBranch s).payment.status = PayStatus.Idle ∧
    (fullCancelBranch s).payment.requestId = none ∧
    (fullCancelBranch s).completeCalls = s.completeCalls ∧
    (fullCancelBranch s).parking.completedRecords = s.parking.completedRecords ∧
    (fullCancelBranch s).paymentModalVisible = false := by
  simp [fullCancelBranch, resetParking, resetPayment]

/-- C10: a downward drag clamps the drawer height into
[DRAWER_MIN_HEIGHT, DRAWER_MAX_HEIGHT], an upward drag (dy ≤ 0) is ignored,
and on release the height snaps to exactly DRAWER_MIN_HEIGHT (minimized)
below the midpoint threshold and to DRAWER_MAX_HEIGHT (not minimized)
otherwise. -/
theorem drawer_drag_clamped_and_snapped (screenHeight : ℚ)
    (hmax : DRAWER_MIN_HEIGHT ≤ DRAWER_MAX_HEIGHT screenHeight) :
    (∀ dy h : ℚ, 0 < dy →
      DRAWER_MIN_HEIGHT ≤ onPanResponderMove screenHeight dy h) ∧
    (∀ dy h : ℚ, 0 < dy →
      onPanResponderMove screenHeight dy h ≤ DRAWER_MAX_HEIGHT screenHeight) ∧
    (∀ dy h : ℚ, dy ≤ 0 → onPanResponderMove screenHeight dy h = h) ∧
    (∀ dy : ℚ,
      DRAWER_MAX_HEIGHT screenHeight - dy <
          (DRAWER_MIN_HEIGHT + DRAWER_MAX_HEIGHT screenHeight) / 2 →
        onPanResponderRelease screenHeight dy = ⟨DRAWER_MIN_HEIGHT, true⟩) ∧
    (∀ dy : ℚ,
      ¬(DRAWER_MAX_HEIGHT screenHeight - dy <
          (DRAWER_MIN_HEIGHT + DRAWER_MAX_HEIGHT screenHeight) / 2) →
        onPanResponderRelease screenHeight dy =
          ⟨DRAWER_MAX_HEIGHT screenHeight, false⟩) := by
  refine ⟨?_, ?_, ?_, ?_, ?_⟩
  · intro dy h hdy
    unfold onPanResponderMove
    rw [if_pos hdy]
    exact le_max_left _ _
  · intro dy h hdy
    unfold onPanResponderMove
    rw [if_pos hdy]
    exact max_le hmax (by linarith)
  · intro dy h hdy
    unfold onPanResponderMove
    rw [if_neg (not_lt.mpr hdy)]
  · intro dy hlt
    unfold onPanResponderRelease
    rw [if_pos hlt]
  · intro dy hge
    unfold onPanResponderRelease
    rw [if_neg hge]

/-- Witness for C10 on an 800-point screen: a 550-point downward drag during
the move clamps to the bounds, an upward drag is ignored, and releases on
both sides of the threshold snap to the respective bound. -/
theorem drawer_drag_clamped_and_snapped_witness :
    DRAWER_MIN_HEIGHT ≤ onPanResponderMove 800 550 600 ∧
    onPanResponderMove 800 550 600 ≤ DRAWER_MAX_HEIGHT 800 ∧
    onPanResponderMove 800 (-5) 600 = 600 ∧
    onPanResponderRelease 800 550 = ⟨DRAWER_MIN_HEIGHT, true⟩ ∧
    onPanResponderRelease 800 10 = ⟨DRAWER_MAX_HEIGHT 800, false⟩ :=
  ⟨(drawer_drag_clamped_and_snapped 800 (by norm_num [DRAWER_MIN_HEIGHT,
      DRAWER_MAX_HEIGHT])).1 550 600 (by norm_num),
   (drawer_drag_clamped_and_snapped 800 (by norm_num [DRAWER_MIN_HEIGHT,
      DRAWER_MAX_HEIGHT])).2.1 550 600 (by norm_num),
   (drawer_drag_clamped_and_snapped 800 (by norm_num [DRAWER_MIN_HEIGHT,
      DRAWER_MAX_HEIGHT])).2.2.1 (-5) 600 (by norm_num),
   (drawer_drag_clamped_and_snapped 800 (by norm_num [DRAWER_MIN_HEIGHT,
      DRAWER_MAX_HEIGHT])).2.2.2.1 550
     (by norm_num [DRAWER_MIN_HEIGHT, DRAWER_MAX_HEIGHT]),
   (drawer_drag_clamped_and_snapped 800 (by norm_num [DRAWER_MIN_HEIGHT,
      DRAWER_MAX_HEIGHT])).2.2.2.2 10
     (by norm_num [DRAWER_MIN_HEIGHT, DRAWER_MAX_HEIGHT])⟩

/-- C2: a confirmation whose requestId does not match the current pending
request's id is never applied (the whole state, in particular the payment
status, is unchanged); and after `cancel()` of a Pending request the status
is AwaitingInput immediately, and a late success confirmation for the
cancelled requestId changes nothing — the status never becomes Success and
completeCalls stays put, so `complete()` is never reached. -/
theorem stale_confirmation_dropped (s : SystemState) (rid : Nat)
    (outcome : GatewayOutcome) (receipt : String) (rate now : Nat) :
    (s.payment.requestId ≠ some rid →
      applyConfirmation rid outcome rate now s = s) ∧
    (s.payment.status = PayStatus.Pending → s.payment.requestId = some rid →
      (cancelPayment s).payment.status = PayStatus.AwaitingInput ∧
      applyConfirmation rid (GatewayOutcome.success receipt) rate now
        (cancelPayment s) = cancelPayment s ∧
      (cancelPayment s).completeCalls = s.completeCalls ∧
      (applyConfirmation rid (GatewayOutcome.success receipt) rate now
        (cancelPayment s)).payment.status = PayStatus.AwaitingInput) := by
  constructor
  · intro hne
    unfold applyConfirmation
    rw [if_neg]
    rintro ⟨-, h2⟩
    exact hne h2
  · intro hp hr
    have h1 : (cancelPayment s).payment.status = PayStatus.AwaitingInput := by
      unfold cancelPayment
      rw [if_pos hp]
    have heq : applyConfirmation rid (GatewayOutcome.success receipt) rate now
        (cancelPayment s) = cancelPayment s := by
      unfold applyConfirmation
      rw [if_neg]
      rintro ⟨hc1, -⟩
      rw [h1] at hc1
      exact absurd hc1 (by decide)
    refine ⟨h1, heq, ?_, by rw [heq]; exact h1⟩
    unfold cancelPayment
    split <;> rfl

/-- Witness for C2: a mismatched-id confirmation on the pending state is
dropped, and cancel followed by a late success for the old id 7 stays
AwaitingInput with no completion. -/
theorem stale_confirmation_dropped_witness :
    applyConfirmation 9 (GatewayOutcome.success "R9") 60 100 stateAP = stateAP ∧
    ((cancelPayment stateAP).payment.status = PayStatus.AwaitingInput ∧
     applyConfirmation 7 (GatewayOutcome.success "R7") 60 100
       (cancelPayment stateAP) = cancelPayment stateAP ∧
     (cancelPayment stateAP).completeCalls = stateAP.completeCalls ∧
     (applyConfirmation 7 (GatewayOutcome.success "R7") 60 100
       (cancelPayment stateAP)).payment.status = PayStatus.AwaitingInput) :=
  ⟨(stale_confirmation_dropped stateAP 9 (GatewayOutcome.success "R9") "R9"
      60 100).1 (by decide),
   (stale_confirmation_dropped stateAP 7 (GatewayOutcome.success "R7") "R7"
      60 100).2 (by decide) (by decide)⟩

/-- C4: `initiate()` called while the payment status is Pending fails with
PaymentAlreadyInProgress and changes nothing: the state is returned as-is,
so the existing pending requestId is unchanged and no new gateway request is
submitted (at most one Pending request per session). -/
theorem initiate_while_pending_rejected (s : SystemState) (phone : String)
    (amount : Nat) (h : s.payment.status = PayStatus.Pending) :
    initiatePayment phone amount s =
      (s, some PaymentError.PaymentAlreadyInProgress) ∧
    (initiatePayment phone amount s).1.payment.requestId = s.payment.requestId ∧
    (initiatePayment phone amount s).1.gatewayCalls = s.gatewayCalls := by
  have hmain : initiatePayment phone amount s =
      (s, some PaymentError.PaymentAlreadyInProgress) := by
    unfold initiatePayment
    rw [if_pos h]
  exact ⟨hmain, by rw [hmain], by rw [hmain]⟩

/-- Witness for C4: a duplicate submission on the pending state is rejected
and the pending requestId 7 is untouched. -/
theorem initiate_while_pending_rejected_witness :
    initiatePayment "254712345678" 60 stateAP =
      (stateAP, some PaymentError.PaymentAlreadyInProgress) ∧
    (initiatePayment "254712345678" 60 stateAP).1.payment.requestId =
      stateAP.payment.requestId ∧
    (initiatePayment "254712345678" 60 stateAP).1.gatewayCalls =
      stateAP.gatewayCalls :=
  initiate_while_pending_rejected stateAP "254712345678" 60 (by decide)

/-- C5: a call to `handleInitiatePayment` with a phone number that fails the
country-specific format check is rejected immediately with
InvalidPhoneNumber surfaced to the caller; the state is returned untouched,
so the payment status remains AwaitingInput and no request is submitted to
the gateway. -/
theorem invalid_phone_rejected (rate now : Nat) (s : SystemState)
    (hv : validatePhoneNumber s.payment.phoneNumber = false)
    (hs : s.payment.status = PayStatus.AwaitingInput) :
    handleInitiatePayment rate now s = (s, some PaymentError.InvalidPhoneNumber) ∧
    (handleInitiatePayment rate now s).1.payment.status =
      PayStatus.AwaitingInput ∧
    (handleInitiatePayment rate now s).1.gatewayCalls = s.gatewayCalls ∧
    (handleInitiatePayment rate now s).1 = s := by
  have hmain : handleInitiatePayment rate now s =
      (s, some PaymentError.InvalidPhoneNumber) := by
    unfold handleInitiatePayment
    by_cases ht : trimChars s.payment.phoneNumber.data = []
    · rw [if_pos ht]
    · rw [if_neg ht]
      cases hopt : formatPhoneNumber s.payment.phoneNumber with
      | none => rfl
      | some v =>
          unfold validatePhoneNumber at hv
          rw [hopt] at hv
          simp at hv
  refine ⟨hmain, ?_, by rw [hmain], by rw [hmain]⟩
  rw [hmain]
  exact hs

/-- Witness for C5: the invalid phone "123" is rejected with no state
change. -/
theorem invalid_phone_rejected_witness :
    handleInitiatePayment 60 100 stateBadPhone =
      (stateBadPhone, some PaymentError.InvalidPhoneNumber) ∧
    (handleInitiatePayment 60 100 stateBadPhone).1.payment.status =
      PayStatus.AwaitingInput ∧
    (handleInitiatePayment 60 100 stateBadPhone).1.gatewayCalls =
      stateBadPhone.gatewayCalls ∧
    (handleInitiatePayment 60 100 stateBadPhone).1 = stateBadPhone :=
  invalid_phone_rejected 60 100 stateBadPhone (by decide) (by decide)

/-- C9: while a payment is processing, every dismissal affordance of the
payment modal — the hardware-back onRequestClose handler, the backdrop
press, the header close button and the Cancel link — is inert (the state is
unchanged and the cancel dialog is never shown), and the one action offered
during Pending, the Cancel Payment button, leaves the parking session
untouched and never opens the cancel dialog, so the parking session cannot
be reset through the payment modal while a request is in flight. -/
theorem modal_dismissal_blocked_while_processing (s : SystemState)
    (h : isProcessingPayment s = true) :
    onRequestCloseHandler s = s ∧
    backdropPressHandler s = s ∧
    closeButtonPress s = s ∧
    cancelLinkPress s = s ∧
    (cancelPaymentButtonPress s).parking = s.parking ∧
    (cancelPaymentButtonPress s).cancelDialogShown = s.cancelDialogShown := by
  refine ⟨?_, ?_, ?_, ?_, ?_, ?_⟩
  · unfold onRequestCloseHandler
    rw [if_pos h]
  · unfold backdropPressHandler
    rw [if_pos h]
  · unfold closeButtonPress
    rw [if_pos h]
  · unfold cancelLinkPress
    rw [if_pos h]
  · unfold cancelPaymentButtonPress cancelPayment
    split <;> rfl
  · unfold cancelPaymentButtonPress cancelPayment
    split <;> rfl

/-- Witness for C9 on the pending state. -/
theorem modal_dismissal_blocked_while_processing_witness :
    onRequestCloseHandler stateAP = stateAP ∧
    backdropPressHandler stateAP = stateAP ∧
    closeButtonPress stateAP = stateAP ∧
    cancelLinkPress stateAP = stateAP ∧
    (cancelPaymentButtonPress stateAP).parking = stateAP.parking ∧
    (cancelPaymentButtonPress stateAP).cancelDialogShown =
      stateAP.cancelDialogShown :=
  modal_dismissal_blocked_while_processing stateAP (by decide)

/-- C3: while parking is Active, the stop gesture (`toggleParking`) only
opens the payment modal and leaves the ParkingSession untouched, and the
Continue Parking branch of the cancel dialog (`resumeParking`) changes
neither status nor startedAt nor the completed-session log; consequently
elapsed keeps being computed as now − startedAt throughout the payment
attempt. -/
theorem payment_flow_preserves_parking (now t0 : Nat) (loc : Option GeoPoint)
    (s : SystemState) (hA : s.parking.status = ParkStatus.Active) :
    (toggleParking now s).parking = s.parking ∧
    (toggleParking now s).paymentModalVisible = true ∧
    (continueParkingBranch loc s).parking.status = ParkStatus.Active ∧
    (continueParkingBranch loc s).parking.startedAt = s.parking.startedAt ∧
    (continueParkingBranch loc s).parking.completedRecords =
      s.parking.completedRecords ∧
    (∀ n2 : Nat,
      elapsedTime n2 (toggleParking now s).parking = elapsedTime n2 s.parking) ∧
    (∀ n2 : Nat,
      elapsedTime n2 (continueParkingBranch loc s).parking =
        elapsedTime n2 s.parking) ∧
    (s.parking.startedAt = some t0 → ∀ n2 : Nat,
      elapsedTime n2 (continueParkingBranch loc s).parking = n2 - t0) := by
  have htog : (toggleParking now s).parking = s.parking := by
    unfold toggleParking
    rw [if_pos hA]
  have hst : (resumeParking loc s.parking).status = s.parking.status := by
    cases loc <;> rfl
  have hsa : (resumeParking loc s.parking).startedAt = s.parking.startedAt := by
    cases loc <;> rfl
  have hcr : (resumeParking loc s.parking).completedRecords =
      s.parking.completedRecords := by
    cases loc <;> rfl
  have hel : ∀ n2 : Nat,
      elapsedTime n2 (resumeParking loc s.parking) = elapsedTime n2 s.parking := by
    intro n2
    unfold elapsedTime
    rw [hst, hsa]
  refine ⟨htog, ?_, ?_, hsa, hcr, ?_, hel, ?_⟩
  · unfold toggleParking
    rw [if_pos hA]
  · show (resumeParking loc s.parking).status = ParkStatus.Active
    rw [hst, hA]
  · intro n2
    rw [htog]
  · intro hstart n2
    show elapsedTime n2 (resumeParking loc s.parking) = n2 - t0
    rw [hel n2]
    unfold elapsedTime
    rw [hA, hstart]

/-- Witness for C3: opening the payment modal at t = 50 leaves the parking
state of `stateAW` untouched, and after resuming, elapsed at t = 120 is
still 120 − 30. -/
theorem payment_flow_preserves_parking_witness :
    (toggleParking 50 stateAW).parking = stateAW.parking ∧
    elapsedTime 120 (continueParkingBranch (some ⟨5, 6⟩) stateAW).parking =
      120 - 30 :=
  ⟨(payment_flow_preserves_parking 50 30 (some ⟨5, 6⟩) stateAW (by decide)).1,
   (payment_flow_preserves_parking 50 30 (some ⟨5, 6⟩) stateAW
      (by decide)).2.2.2.2.2.2.2 (by decide) 120⟩

/-- C1: for a successful payment confirmation (valid initiation from
AwaitingInput while parking is Active, then the gateway's success for the
assigned requestId), `completeParking` is invoked exactly once — the
counter goes from c to c + 1 at the confirmation, a single finished-session
record carrying that confirmation's receipt is appended — and this happens
before the session is reset to Idle: after the subsequent Done press the
counter is still c + 1 and both managers are Idle. -/
theorem complete_called_exactly_once (s : SystemState) (phone receipt : String)
    (amount rate now : Nat)
    (hAw : s.payment.status = PayStatus.AwaitingInput)
    (hAct : s.parking.status = ParkStatus.Active)
    (hph : validNormalizedPhone phone = true) :
    (initiatePayment phone amount s).2 = none ∧
    (initiatePayment phone amount s).1.payment.status = PayStatus.Pending ∧
    (initiatePayment phone amount s).1.completeCalls = s.completeCalls ∧
    (successPaymentFlow phone receipt amount rate now s).completeCalls =
      s.completeCalls + 1 ∧
    (successPaymentFlow phone receipt amount rate now s).parking.completedRecords =
      s.parking.completedRecords ++ [⟨currentCost rate now s.parking, receipt⟩] ∧
    (successPaymentFlow phone receipt amount rate now s).payment.receipt =
      some receipt ∧
    (successPaymentFlow phone receipt amount rate now s).parking.status =
      ParkStatus.Idle ∧
    (pressDone (successPaymentFlow phone receipt amount rate now s)).completeCalls =
      s.completeCalls + 1 ∧
    (pressDone (successPaymentFlow phone receipt amount rate now s)).parking.status =
      ParkStatus.Idle ∧
    (pressDone (successPaymentFlow phone receipt amount rate now s)).payment.status =
      PayStatus.Idle := by
  have hnp : ¬(s.payment.status = PayStatus.Pending) := by
    rw [hAw]
    decide
  have hvp : ¬(validNormalizedPhone phone = false) := by
    rw [hph]
    decide
  have h1 : initiatePayment phone amount s =
      ({ s with
          payment := { s.payment with
                        status := .Pending,
                        requestId := some s.nextRequestId },
          nextRequestId := s.nextRequestId + 1,
          gatewayCalls := s.gatewayCalls ++ [⟨s.nextRequestId, phone, amount⟩] },
       none) := by
    unfold initiatePayment
    rw [if_neg hnp, if_neg hvp]
  have hcp : completeParking rate now receipt s.parking =
      { s.parking with
          status := .Idle
          startedAt := none
          completedRecords := s.parking.completedRecords ++
            [⟨currentCost rate now s.parking, receipt⟩] } := by
    unfold completeParking
    rw [hAct]
  have hflow : successPaymentFlow phone receipt amount rate now s =
      { s with
          parking := completeParking rate now receipt s.parking,
          payment := { s.payment with
                        status := .Success,
                        requestId := some s.nextRequestId,
                        receipt := some receipt },
          nextRequestId := s.nextRequestId + 1,
          gatewayCalls := s.gatewayCalls ++ [⟨s.nextRequestId, phone, amount⟩],
          completeCalls := s.completeCalls + 1 } := by
    unfold successPaymentFlow
    rw [h1]
    unfold applyConfirmation
    rw [if_pos ⟨rfl, rfl⟩]
    rfl
  refine ⟨by rw [h1], by rw [h1], by rw [h1], by rw [hflow], ?_, by rw [hflow],
    ?_, by rw [hflow]; rfl, ?_, by rw [hflow]; rfl⟩
  · rw [hflow]
    show (completeParking rate now receipt s.parking).completedRecords = _
    rw [hcp]
  · rw [hflow]
    show (completeParking rate now receipt s.parking).status = ParkStatus.Idle
    rw [hcp]
  · rw [hflow]
    show (resetParking (completeParking rate now receipt s.parking)).status =
      ParkStatus.Idle
    rfl

/-- Witness for C1: scenario 2 on `stateAW` with a valid phone — one
completion carrying receipt R1, then Idle after Done. -/
theorem complete_called_exactly_once_witness :
    (successPaymentFlow "254712345678" "R1" 60 60 3630 stateAW).completeCalls =
      stateAW.completeCalls + 1 ∧
    (successPaymentFlow "254712345678" "R1" 60 60 3630
        stateAW).parking.completedRecords =
      stateAW.parking.completedRecords ++
        [⟨currentCost 60 3630 stateAW.parking, "R1"⟩] ∧
    (pressDone (successPaymentFlow "254712345678" "R1" 60 60 3630
        stateAW)).completeCalls = stateAW.completeCalls + 1 :=
  ⟨(complete_called_exactly_once stateAW "254712345678" "R1" 60 60 3630
      (by decide) (by decide) (by decide)).2.2.2.1,
   (complete_called_exactly_once stateAW "254712345678" "R1" 60 60 3630
      (by decide) (by decide) (by decide)).2.2.2.2.1,
   (complete_called_exactly_once stateAW "254712345678" "R1" 60 60 3630
      (by decide) (by decide) (by decide)).2.2.2.2.2.2.2.1⟩

end KenPark
